import Mathlib

/-!
Verification development for `generate_qr.py` (D-Anastasios/QR_code_generator).

The repository is a single Python function `generate_qr_code(email, subject,
logo_path, body=None, output_file="email_qr.png")` that

  1. builds the string `f"mailto:{email}?subject={subject}&body={body}"`
     (defaulting `body` to a fixed French sentence when it is `None`),
  2. feeds it to `qrcode.QRCode(version=6, error_correction=ERROR_CORRECT_H,
     box_size=10, border=4)` via `add_data` and `make(fit=True)`,
  3. renders `make_image(fill_color="blue", back_color="white").convert("RGB")`,
  4. inside a `try: ... except FileNotFoundError:` block opens the logo,
     resizes it to a square of side `qr_img.size[0] // 3`, computes the
     centered paste position and pastes it onto the QR image,
  5. saves the image to `output_file`, shows it, and prints a confirmation.

The embedding below models the pure data flow of that function, the
version-fitting logic of the `qrcode` library (`QRCode.best_fit`, invoked by
`make(fit=True)`), and the effectful steps (PIL `Image.open/resize/paste`,
`save`, `show`, `print`) as explicit error-injection points recorded in an
event trace.
-/

namespace QRGen

/-- Python exception values that can surface from `generate_qr_code`:
`FileNotFoundError` from `PIL.Image.open`, any other OS/PIL error (carrying a
message), and `qrcode.exceptions.DataOverflowError` from `QRCode.best_fit`. -/
inductive PyExc where
  | fileNotFound
  | other (msg : String)
  | dataOverflow
  deriving DecidableEq

/-- Errors the I/O steps of the program (PIL open/resize/paste, file save,
image show) can raise.  These steps raise OS or PIL errors, never the
`qrcode` library's `DataOverflowError`, hence the separate type. -/
inductive IOErr where
  | fileNotFound
  | other (msg : String)
  deriving DecidableEq

deriving instance DecidableEq for Except

/-- The Python exception corresponding to an I/O-step error. -/
def IOErr.toExc : IOErr → PyExc
  | .fileNotFound => PyExc.fileNotFound
  | .other m => PyExc.other m

/-- Model of a PIL image as used by `generate_qr.py`: its pixel size, its
mode string, and the rectangle `(x, y, w, h)` of the most recent `paste`,
`none` when nothing was pasted onto it. -/
structure PILImage where
  width : Nat
  height : Nat
  mode : String
  overlay : Option (Nat × Nat × Nat × Nat)
  deriving DecidableEq

/-- Model of `PIL.Image.resize((w, h))`: a copy with the new size.  PIL does
not preserve the aspect ratio here; the pixels are stretched. -/
def PILImage.resize (img : PILImage) (w h : Nat) : PILImage :=
  { width := w, height := h, mode := img.mode, overlay := img.overlay }

/-- Model of `base.paste(logo, pos)`: the base image keeps its size and mode;
the pasted rectangle (position and the logo's size) is recorded. -/
def PILImage.paste (base logo : PILImage) (pos : Nat × Nat) : PILImage :=
  { width := base.width, height := base.height, mode := base.mode,
    overlay := some (pos.1, pos.2, logo.width, logo.height) }

/-- Environment of one call: the outcome of each effectful step.
`openResult` is what `Image.open(logo_path)` does (yield an image or raise);
the four `Option IOErr` fields inject an exception into `logo.resize`,
`qr_img.paste`, `qr_img.save` and `qr_img.show` respectively (`none` means
the step succeeds). -/
structure Env where
  openResult : Except IOErr PILImage
  resizeErr : Option IOErr
  pasteErr : Option IOErr
  saveErr : Option IOErr
  showErr : Option IOErr

/-- Observable events of a run: console prints, the file save, and the
image-viewer display. -/
inductive Event where
  | printed (s : String)
  | savedFile (path : String)
  | shown
  deriving DecidableEq

/-! ## The mailto link (lines 56-62 of `generate_qr.py`) -/

/-- The default body text from the source: used when `body is None`. -/
def default_body : String :=
  "Je suis intéressé(e) à participer à votre étude. " ++
  "Vous pouvez me contacter à cette adresse e-mail ou " ++
  "m\x27appeler au [votre numéro]."

/-- The encoded payload: `f"mailto:{email}?subject={subject}&body={body}"`.
No escaping or validation is performed. -/
def email_link (email subject body : String) : String :=
  "mailto:" ++ email ++ "?subject=" ++ subject ++ "&body=" ++ body

/-! ## Model of the `qrcode` library's version fitting

`generate_qr.py` calls `qr.add_data(email_link)` (default `optimize=20`) and
`qr.make(fit=True)`.  In the `qrcode` library, `add_data` splits the UTF-8
bytes of the payload into mode-optimized chunks (`util.optimal_data_chunks`,
minimum run length 20), and `make(fit=True)` calls
`best_fit(start=self.version)`, which bisects `util.BIT_LIMIT_TABLE` for the
configured error-correction level from the requested version upward and
raises `DataOverflowError` only when even version 40 cannot hold the data. -/

/-- UTF-8 bytes of one character (model of Python `str.encode("utf-8")` for
one code point). -/
def charUtf8 (c : Char) : List Nat :=
  let n := c.toNat
  if n < 128 then [n]
  else if n < 2048 then [192 + n / 64, 128 + n % 64]
  else if n < 65536 then [224 + n / 4096, 128 + (n / 64) % 64, 128 + n % 64]
  else [240 + n / 262144, 128 + (n / 4096) % 64, 128 + (n / 64) % 64, 128 + n % 64]

/-- UTF-8 bytes of a string (model of `qrcode.util.to_bytestring`). -/
def utf8Bytes (s : String) : List Nat :=
  (s.data.map charUtf8).flatten

/-- ASCII digit test on a byte, mirroring the regex `\d` over bytes. -/
def isDigitByte (b : Nat) : Bool :=
  48 ≤ b && b ≤ 57

/-- Membership in `qrcode.util.ALPHA_NUM`, the QR alphanumeric charset
`0123456789ABCDEFGHIJKLMNOPQRSTUVWXYZ $%*+-./:` as bytes. -/
def isAlphaNumByte (b : Nat) : Bool :=
  isDigitByte b || (65 ≤ b && b ≤ 90) || b == 32 || b == 36 || b == 37 ||
    b == 42 || b == 43 || b == 45 || b == 46 || b == 47 || b == 58

/-- QR encoding modes used by `qrcode.util.QRData`. -/
inductive QRMode where
  | numeric
  | alphaNum
  | byte
  deriving DecidableEq

/-- Maximal runs of bytes sharing the value of `p`, in order, each tagged
with that value.  Every run is nonempty. -/
def runsBy (p : Nat → Bool) : List Nat → List (Bool × List Nat)
  | [] => []
  | b :: rest =>
    match runsBy p rest with
    | [] => [(p b, [b])]
    | (q, r) :: more =>
      if p b = q then (q, b :: r) :: more else (p b, [b]) :: (q, r) :: more

/-- Prepend bytes to the run list as non-matching content, merging with a
leading non-matching run when there is one.  This realises the behaviour of
`qrcode.util._optimal_split`, whose inter-match segments absorb the
matching runs that are shorter than the minimum length. -/
def pushSeg (bytes : List Nat) : List (Bool × List Nat) → List (Bool × List Nat)
  | (false, r) :: rest => (false, bytes ++ r) :: rest
  | rest => (false, bytes) :: rest

/-- Keep only the matching runs of length at least `min` as `true` segments;
everything else coalesces into `false` segments.  Together with `runsBy`
this models `qrcode.util._optimal_split(data, pattern)` where `pattern` is
`X{min,}` for a character class `X`. -/
def segmentRuns (min : Nat) : List (Bool × List Nat) → List (Bool × List Nat)
  | [] => []
  | (true, r) :: rest =>
    if min ≤ r.length then (true, r) :: segmentRuns min rest
    else pushSeg r (segmentRuns min rest)
  | (false, r) :: rest => pushSeg r (segmentRuns min rest)

/-- Second pass of `qrcode.util.optimal_data_chunks`: inside a non-numeric
segment, runs of at least `min` QR-alphanumeric bytes become alphanumeric
chunks and the rest become 8-bit-byte chunks. -/
def alphaChunksOf (min : Nat) (seg : List Nat) : List (QRMode × List Nat) :=
  (segmentRuns min (runsBy isAlphaNumByte seg)).map fun s =>
    (if s.1 then QRMode.alphaNum else QRMode.byte, s.2)

/-- Model of `qrcode.util.optimal_data_chunks(data, minimum)` for data longer
than `minimum` (the branch `generate_qr.py` always hits, since the payload
starts with `mailto:...` and has more than 20 bytes), plus the short-data
branch where the whole data is a single chunk of the best applicable mode. -/
def optimal_data_chunks (min : Nat) (data : List Nat) : List (QRMode × List Nat) :=
  if data.length ≤ min then
    match data with
    | [] => []
    | _ =>
      if data.all isDigitByte then [(QRMode.numeric, data)]
      else if data.all isAlphaNumByte then [(QRMode.alphaNum, data)]
      else [(QRMode.byte, data)]
  else
    ((segmentRuns min (runsBy isDigitByte data)).map fun seg =>
      if seg.1 then [(QRMode.numeric, seg.2)] else alphaChunksOf min seg.2).flatten

/-- Character-count field width per mode, as in `qrcode.util.
mode_sizes_for_version`: versions 1-9 / 10-26 / 27-40. -/
def modeCountBits (version : Nat) (m : QRMode) : Nat :=
  if version < 10 then
    match m with
    | QRMode.numeric => 10
    | QRMode.alphaNum => 9
    | QRMode.byte => 8
  else if version < 27 then
    match m with
    | QRMode.numeric => 12
    | QRMode.alphaNum => 11
    | QRMode.byte => 16
  else
    match m with
    | QRMode.numeric => 14
    | QRMode.alphaNum => 13
    | QRMode.byte => 16

/-- Payload bits written by `qrcode.util.QRData.write` for a chunk of `n`
bytes: numeric packs 3 digits in 10 bits (remainder 1 digit in 4 bits, 2 in
7), alphanumeric packs 2 characters in 11 bits (remainder in 6), byte mode
uses 8 bits per byte. -/
def chunkDataBits (m : QRMode) (n : Nat) : Nat :=
  match m with
  | QRMode.numeric =>
    10 * (n / 3) + (if n % 3 = 1 then 4 else if n % 3 = 2 then 7 else 0)
  | QRMode.alphaNum => 11 * (n / 2) + 6 * (n % 2)
  | QRMode.byte => 8 * n

/-- Bits needed for the chunk list at a given version: 4 mode-indicator bits
plus the character-count field plus the payload bits, per chunk.  This is
the `needed_bits` computed inside `qrcode.QRCode.best_fit`. -/
def neededBits (version : Nat) (chunks : List (QRMode × List Nat)) : Nat :=
  chunks.foldl (fun acc c => acc + 4 + modeCountBits version c.1 + chunkDataBits c.1 c.2.length) 0

/-- `qrcode.util.BIT_LIMIT_TABLE` row for error-correction level H: eight
times the data-codeword count of each version 1-40, with a leading 0 so
that the list is indexed by version. -/
def BIT_LIMIT_H : List Nat :=
  [0, 72, 128, 208, 288, 368, 480, 528, 688, 800, 976,
   1120, 1264, 1440, 1576, 1784, 2024, 2264, 2504, 2728, 3080,
   3248, 3536, 3712, 4112, 4304, 4768, 5024, 5288, 5608, 5960,
   6344, 6760, 7208, 7688, 7888, 8432, 8768, 9136, 9776, 10208]

/-- Linear scan behind `bisectFrom`, written with fuel so that it is
structurally recursive (42 steps always suffice to pass index 41). -/
def bisectFromAux (needed : Nat) : Nat → Nat → Nat
  | 0, _ => 41
  | fuel + 1, v =>
    if 41 ≤ v then 41
    else if needed ≤ BIT_LIMIT_H.getD v 0 then v
    else bisectFromAux needed fuel (v + 1)

/-- The `bisect_left(BIT_LIMIT_TABLE[ec], needed_bits, start)` step of
`best_fit`: the least version in `[v, 40]` whose bit limit reaches
`needed`, or 41 when none does. -/
def bisectFrom (needed : Nat) (v : Nat) : Nat :=
  bisectFromAux needed 42 v

/-- Which of the three character-count size classes a version falls in
(`mode_sizes_for_version` returns the same dict exactly within a class). -/
def modeSizeClass (v : Nat) : Nat :=
  if v < 10 then 0 else if v < 27 then 1 else 2

/-- Model of `qrcode.QRCode.best_fit(start)`: compute the needed bits with
the count-field widths of `start`, bisect the level-H bit-limit table from
`start`, and restart at the found version when it lies in a larger size
class (the recursion in the library); 41 encodes `DataOverflowError`.  The
real recursion restarts at most twice (there are three size classes), so
fuel 4 makes this total without changing its value. -/
def best_fit_aux (chunks : List (QRMode × List Nat)) : Nat → Nat → Nat
  | 0, _ => 41
  | fuel + 1, start =>
    let v := bisectFrom (neededBits start chunks) start
    if 41 ≤ v then 41
    else if modeSizeClass v = modeSizeClass start then v
    else best_fit_aux chunks fuel v

/-- `qrcode.QRCode.best_fit` with the fuel fixed. -/
def best_fit (chunks : List (QRMode × List Nat)) (start : Nat) : Nat :=
  best_fit_aux chunks 4 start

/-- Chunks produced by `qr.add_data(s)` with its default `optimize=20`. -/
def data_chunks (s : String) : List (QRMode × List Nat) :=
  optimal_data_chunks 20 (utf8Bytes s)

/-- The version `qr.make(fit=True)` settles on for a payload, given the
requested `version=6`: `best_fit` from 6 upward (41 standing for
`DataOverflowError`). -/
def fitted_version (link : String) : Nat :=
  best_fit (data_chunks link) 6

/-! ## QR configuration and image (lines 65-77 of `generate_qr.py`) -/

/-- The constructor arguments of `qrcode.QRCode` and the colors passed to
`make_image`, all fixed in the source and not exposed to the caller. -/
structure QRConfig where
  version : Nat
  error_correction : String
  box_size : Nat
  border : Nat
  fill_color : String
  back_color : String
  deriving DecidableEq

/-- The fixed configuration from the source. -/
def fixedConfig : QRConfig :=
  { version := 6, error_correction := "H", box_size := 10, border := 4,
    fill_color := "blue", back_color := "white" }

/-- Model of `qr.make_image(...).convert("RGB")` at the version `make`
settled on: a fresh RGB image of `(modules + 2*border) * box_size` pixels a
side, where the module count is `4*version + 17`. -/
def make_image (version : Nat) : PILImage :=
  { width := (4 * version + 17 + 2 * fixedConfig.border) * fixedConfig.box_size,
    height := (4 * version + 17 + 2 * fixedConfig.border) * fixedConfig.box_size,
    mode := "RGB", overlay := none }

/-! ## The logo overlay block (lines 80-94 of `generate_qr.py`) -/

/-- The console message printed by the `except FileNotFoundError` handler. -/
def logo_missing_msg : String :=
  "Logo file not found. Proceeding without a logo."

/-- The body of the `try:` block: open the logo, resize it to a square of
side `qr_img.size[0] // 3`, compute the centered position
`((W - w) // 2, (H - h) // 2)`, and paste.  Any step may raise. -/
def logo_block (env : Env) (qr_img : PILImage) : Except IOErr PILImage :=
  match env.openResult with
  | Except.error e => Except.error e
  | Except.ok logo =>
    match env.resizeErr with
    | some e => Except.error e
    | none =>
      let max_logo_size := qr_img.width / 3
      let logo2 := logo.resize max_logo_size max_logo_size
      let pos := ((qr_img.width - logo2.width) / 2, (qr_img.height - logo2.height) / 2)
      match env.pasteErr with
      | some e => Except.error e
      | none => Except.ok (qr_img.paste logo2 pos)

/-- The `try ... except FileNotFoundError` statement: a `FileNotFoundError`
raised anywhere in the block is caught, the message is printed and the QR
image is kept without a logo; any other exception propagates. -/
def addLogo (env : Env) (qr_img : PILImage) : Except PyExc (PILImage × List Event) :=
  match logo_block env qr_img with
  | Except.ok img => Except.ok (img, [])
  | Except.error IOErr.fileNotFound =>
    Except.ok (qr_img, [Event.printed logo_missing_msg])
  | Except.error (IOErr.other m) => Except.error (PyExc.other m)

/-! ## Output stage and the whole run (lines 96-99 of `generate_qr.py`) -/

/-- The confirmation line `f"QR code saved as {output_file}"`. -/
def saved_msg (output_file : String) : String :=
  "QR code saved as " ++ output_file

/-- Default of the `output_file` parameter of `generate_qr_code`. -/
def default_output : String :=
  "email_qr.png"

/-- Trace, save outcome and terminating exception of the stages following
the payload construction. -/
structure StageOut where
  events : List Event
  saved : Option (String × PILImage)
  error : Option PyExc

/-- Everything after `make(fit=True)` decided the version `v` (41 standing
for `DataOverflowError`): render the image, run the logo block, then
`qr_img.save(output_file)`, `qr_img.show()` and the confirmation print, in
that order, stopping at the first exception. -/
def runStages (v : Nat) (env : Env) (output_file : String) : StageOut :=
  if 41 ≤ v then
    { events := [], saved := none, error := some PyExc.dataOverflow }
  else
    let qr_img := make_image v
    match addLogo env qr_img with
    | Except.error e => { events := [], saved := none, error := some e }
    | Except.ok (img, evs) =>
      match env.saveErr with
      | some e => { events := evs, saved := none, error := some e.toExc }
      | none =>
        match env.showErr with
        | some e =>
          { events := evs ++ [Event.savedFile output_file],
            saved := some (output_file, img), error := some e.toExc }
        | none =>
          { events := evs ++ [Event.savedFile output_file, Event.shown,
              Event.printed (saved_msg output_file)],
            saved := some (output_file, img), error := none }

/-- Result of one call of `generate_qr_code`: the encoded payload, the fixed
encoder configuration, the version `make(fit=True)` settled on, the event
trace, the saved file (path and image) and the propagated exception if
any. -/
structure RunResult where
  payload : String
  config : QRConfig
  qr_version : Nat
  events : List Event
  saved : Option (String × PILImage)
  error : Option PyExc

/-- Model of `generate_qr_code(email, subject, logo_path, body, output_file)`
from `generate_qr.py`; `env` stands for `logo_path` together with the state
of the filesystem and display. -/
def generate_qr_code (email subject : String) (env : Env) (body : Option String)
    (output_file : String) : RunResult :=
  let bodyText := body.getD default_body
  let link := email_link email subject bodyText
  let v := fitted_version link
  let st := runStages v env output_file
  { payload := link, config := fixedConfig, qr_version := v,
    events := st.events, saved := st.saved, error := st.error }

/-! ## Helper lemmas -/

/-- Length of a string append is the sum of the lengths. -/
theorem string_length_append (a b : String) : (a ++ b).length = a.length + b.length := by
  cases a with
  | mk da =>
    cases b with
    | mk db => simp [String.length, String.append]

/-- No I/O-step error maps to the library's capacity error. -/
theorem toExc_ne_overflow (e : IOErr) : e.toExc ≠ PyExc.dataOverflow := by
  cases e <;> simp [IOErr.toExc]

/-- When the logo block completes (with or without the handler firing), the
resulting image keeps the QR image's size and mode, and the only possible
console output is the missing-logo message. -/
theorem addLogo_ok (env : Env) (qr img : PILImage) (evs : List Event)
    (h : addLogo env qr = Except.ok (img, evs)) :
    img.width = qr.width ∧ img.height = qr.height ∧ img.mode = qr.mode ∧
      (evs = [] ∨ evs = [Event.printed logo_missing_msg]) := by
  rcases env with ⟨op, re, pe, se, sh⟩
  rcases op with e | logo
  · rcases e with _ | m
    · simp [addLogo, logo_block] at h
      obtain ⟨rfl, rfl⟩ := h
      exact ⟨rfl, rfl, rfl, Or.inr rfl⟩
    · simp [addLogo, logo_block] at h
  · rcases re with _ | er
    · rcases pe with _ | ep
      · simp [addLogo, logo_block] at h
        obtain ⟨rfl, rfl⟩ := h
        exact ⟨rfl, rfl, rfl, Or.inl rfl⟩
      · rcases ep with _ | m
        · simp [addLogo, logo_block] at h
          obtain ⟨rfl, rfl⟩ := h
          exact ⟨rfl, rfl, rfl, Or.inr rfl⟩
        · simp [addLogo, logo_block] at h
    · rcases er with _ | m
      · simp [addLogo, logo_block] at h
        obtain ⟨rfl, rfl⟩ := h
        exact ⟨rfl, rfl, rfl, Or.inr rfl⟩
      · simp [addLogo, logo_block] at h

/-- An exception escaping the logo block is always an `other` error: the
`FileNotFoundError` branch never propagates. -/
theorem addLogo_error (env : Env) (qr : PILImage) (e : PyExc)
    (h : addLogo env qr = Except.error e) : ∃ m, e = PyExc.other m := by
  rcases env with ⟨op, re, pe, se, sh⟩
  rcases op with e0 | logo
  · rcases e0 with _ | m
    · simp [addLogo, logo_block] at h
    · simp [addLogo, logo_block] at h
      exact ⟨m, h.symm⟩
  · rcases re with _ | er
    · rcases pe with _ | ep
      · simp [addLogo, logo_block] at h
      · rcases ep with _ | m
        · simp [addLogo, logo_block] at h
        · simp [addLogo, logo_block] at h
          exact ⟨m, h.symm⟩
    · rcases er with _ | m
      · simp [addLogo, logo_block] at h
      · simp [addLogo, logo_block] at h
        exact ⟨m, h.symm⟩

/-- Whatever image the run saves under whatever conditions, it is saved at
the given output path and has the pixel size and mode of the rendered QR
image. -/
theorem runStages_saved_shape (v : Nat) (env : Env) (out path : String) (img : PILImage)
    (h : (runStages v env out).saved = some (path, img)) :
    path = out ∧ img.width = (make_image v).width ∧ img.height = (make_image v).height ∧
      img.mode = "RGB" := by
  by_cases hv : 41 ≤ v
  · simp [runStages, hv] at h
  · cases haddl : addLogo env (make_image v) with
    | error e => simp [runStages, hv, haddl] at h
    | ok p =>
      obtain ⟨img1, evs⟩ := p
      obtain ⟨hw, hh, hm, -⟩ := addLogo_ok env (make_image v) img1 evs haddl
      cases hse : env.saveErr with
      | some e => simp [runStages, hv, haddl, hse] at h
      | none =>
        cases hsh : env.showErr with
        | some e =>
          simp [runStages, hv, haddl, hse, hsh] at h
          obtain ⟨rfl, rfl⟩ := h
          exact ⟨rfl, hw, hh, hm⟩
        | none =>
          simp [runStages, hv, haddl, hse, hsh] at h
          obtain ⟨rfl, rfl⟩ := h
          exact ⟨rfl, hw, hh, hm⟩

/-- A version of 41 means `DataOverflowError`: the run aborts before
anything is rendered, printed or saved. -/
theorem runStages_overflow (v : Nat) (env : Env) (out : String) (hv : 41 ≤ v) :
    runStages v env out =
      { events := [], saved := none, error := some PyExc.dataOverflow } := by
  unfold runStages
  rw [if_pos hv]

/-- When the payload fits some version up to 40, whatever else happens the
run never terminates with the capacity error. -/
theorem runStages_no_overflow (v : Nat) (env : Env) (out : String)
    (hv : ¬ 41 ≤ v) : (runStages v env out).error ≠ some PyExc.dataOverflow := by
  cases haddl : addLogo env (make_image v) with
  | error e =>
    obtain ⟨m, rfl⟩ := addLogo_error env (make_image v) e haddl
    simp [runStages, hv, haddl]
  | ok p =>
    obtain ⟨img1, evs⟩ := p
    cases hse : env.saveErr with
    | some e => simp [runStages, hv, haddl, hse, toExc_ne_overflow]
    | none =>
      cases hsh : env.showErr with
      | some e => simp [runStages, hv, haddl, hse, hsh, toExc_ne_overflow]
      | none => simp [runStages, hv, haddl, hse, hsh]

/-! ## Concrete fixtures used by the witnesses and the counterexample -/

/-- A non-square test logo (to exercise the stretch-to-square resize). -/
def logoTest : PILImage :=
  { width := 300, height := 100, mode := "RGB", overlay := none }

/-- A call where the logo path names no file and everything else succeeds. -/
def envNoLogo : Env :=
  { openResult := Except.error IOErr.fileNotFound, resizeErr := none, pasteErr := none,
    saveErr := none, showErr := none }

/-- A call where the logo loads fine and everything succeeds. -/
def envLogo : Env :=
  { openResult := Except.ok logoTest, resizeErr := none, pasteErr := none,
    saveErr := none, showErr := none }

/-- A call where opening the logo raises a non-`FileNotFoundError` error. -/
def envCorrupt : Env :=
  { openResult := Except.error (IOErr.other "corrupt"), resizeErr := none, pasteErr := none,
    saveErr := none, showErr := none }

/-- The composed image of the successful with-logo run at version 6:
490 pixels a side with the 163-pixel logo square pasted at (163, 163). -/
def pastedTest : PILImage :=
  { width := 490, height := 490, mode := "RGB", overlay := some (163, 163, 163, 163) }

/-- A call where the logo opens but the resize step raises
`FileNotFoundError`. -/
def envResizeFNF : Env :=
  { openResult := Except.ok logoTest, resizeErr := some IOErr.fileNotFound, pasteErr := none,
    saveErr := none, showErr := none }

/-- The error of a run is the error of its stages at the fitted version. -/
theorem generate_error_eq (email subject out : String) (body : Option String) (env : Env) :
    (generate_qr_code email subject env body out).error =
      (runStages (fitted_version (email_link email subject (body.getD default_body))) env out).error := by
  simp only [generate_qr_code]

/-- The save outcome of a run is that of its stages at the fitted version. -/
theorem generate_saved_eq (email subject out : String) (body : Option String) (env : Env) :
    (generate_qr_code email subject env body out).saved =
      (runStages (fitted_version (email_link email subject (body.getD default_body))) env out).saved := by
  simp only [generate_qr_code]

/-- The event trace of a run is that of its stages at the fitted version. -/
theorem generate_events_eq (email subject out : String) (body : Option String) (env : Env) :
    (generate_qr_code email subject env body out).events =
      (runStages (fitted_version (email_link email subject (body.getD default_body))) env out).events := by
  simp only [generate_qr_code]

/-- Stage result when the logo path names no file and saving and showing
succeed: message, save of the bare QR image, display, confirmation. -/
theorem runStages_no_logo (v : Nat) (env : Env) (out : String)
    (hopen : env.openResult = Except.error IOErr.fileNotFound)
    (hsave : env.saveErr = none) (hshow : env.showErr = none)
    (hv41 : ¬ 41 ≤ v) :
    runStages v env out =
      { events := [Event.printed logo_missing_msg, Event.savedFile out, Event.shown,
          Event.printed (saved_msg out)],
        saved := some (out, make_image v), error := none } := by
  simp only [runStages, addLogo, logo_block, hopen, hsave, hshow, hv41, if_false,
    List.cons_append, List.nil_append]

/-- Stage result when the logo loads and every step succeeds: the logo is
resized to a `width/3` square, pasted centered, and the composed image is
saved, shown, and confirmed. -/
theorem runStages_with_logo (v : Nat) (env : Env) (out : String) (logo : PILImage)
    (hopen : env.openResult = Except.ok logo)
    (hre : env.resizeErr = none) (hpa : env.pasteErr = none)
    (hsave : env.saveErr = none) (hshow : env.showErr = none)
    (hv41 : ¬ 41 ≤ v) :
    runStages v env out =
      { events := [Event.savedFile out, Event.shown, Event.printed (saved_msg out)],
        saved := some (out, (make_image v).paste
          (logo.resize ((make_image v).width / 3) ((make_image v).width / 3))
          (((make_image v).width - (make_image v).width / 3) / 2,
            ((make_image v).height - (make_image v).width / 3) / 2)),
        error := none } := by
  simp only [runStages, addLogo, logo_block, hopen, hre, hpa, hsave, hshow, hv41, if_false,
    List.nil_append, PILImage.resize]

/-! ## Claims -/

/-- Claim C1: for every email, subject and supplied body, the encoded
payload built by `generate_qr_code` equals
`mailto:{email}?subject={subject}&body={body}` verbatim, with no
percent-encoding or validation; with no body supplied it equals
`mailto:{email}?subject={subject}&body=` followed by the fixed default
French recruitment sentence. -/
theorem payload_verbatim (email subject body out : String) (env : Env) :
    (generate_qr_code email subject env (some body) out).payload =
      "mailto:" ++ email ++ "?subject=" ++ subject ++ "&body=" ++ body ∧
    (generate_qr_code email subject env none out).payload =
      "mailto:" ++ email ++ "?subject=" ++ subject ++ "&body=" ++ default_body := by
  constructor <;> simp only [generate_qr_code, email_link, Option.getD]

set_option maxRecDepth 8192 in
/-- Claim C8: only an omitted body triggers the default French sentence; any
supplied body, the empty string included, is used verbatim, so an empty
body yields a payload ending in `&body=` and differing from the
default-body payload. -/
theorem empty_body_distinct (email subject b out : String) (env : Env) :
    (generate_qr_code email subject env (some b) out).payload =
      "mailto:" ++ email ++ "?subject=" ++ subject ++ "&body=" ++ b ∧
    (generate_qr_code email subject env (some "") out).payload =
      "mailto:" ++ email ++ "?subject=" ++ subject ++ "&body=" ∧
    (generate_qr_code email subject env (some "") out).payload ≠
      (generate_qr_code email subject env none out).payload := by
  have hsome : ∀ b : String,
      (generate_qr_code email subject env (some b) out).payload = email_link email subject b := by
    intro b
    simp only [generate_qr_code, Option.getD]
  have hnone :
      (generate_qr_code email subject env none out).payload = email_link email subject default_body := by
    simp only [generate_qr_code, Option.getD]
  refine ⟨?_, ?_, ?_⟩
  · rw [hsome b]
    simp only [email_link]
  · rw [hsome ""]
    simp [email_link]
  · intro h
    rw [hsome "", hnone] at h
    have h3 := congrArg String.length h
    simp only [email_link, string_length_append] at h3
    have hpos : 0 < default_body.length := by decide
    have hemp : ("" : String).length = 0 := rfl
    omega

/-- Claim C9: the string-building stage is deterministic: two calls with the
same email, subject and body produce the same mailto payload and the same
encoder configuration (and the same fitted version), whatever the logo
environment and output path are. -/
theorem payload_deterministic (email subject : String) (body : Option String)
    (out1 out2 : String) (env1 env2 : Env) :
    (generate_qr_code email subject env1 body out1).payload =
      (generate_qr_code email subject env2 body out2).payload ∧
    (generate_qr_code email subject env1 body out1).config =
      (generate_qr_code email subject env2 body out2).config ∧
    (generate_qr_code email subject env1 body out1).qr_version =
      (generate_qr_code email subject env2 body out2).qr_version := by
  refine ⟨?_, ?_, ?_⟩ <;> simp only [generate_qr_code]

set_option maxRecDepth 8192 in
/-- Claim C4 counterexample: the payload
`mailto:someone@example.com?subject=hello&body=write back soon` needs 500
bits, more than the 480-bit capacity of version 6 at level H, yet the run
does not abort: `make(fit=True)` auto-fits to version 7, no error is
raised, and the image is saved.  This refutes both "auto-fit disabled" and
"a capacity error aborts the program when the payload exceeds version 6". -/
theorem version_autofit_counterexample :
    BIT_LIMIT_H.getD 6 0 <
      neededBits 6 (data_chunks
        (generate_qr_code "someone@example.com" "hello" envNoLogo (some "write back soon")
          "email_qr.png").payload) ∧
    (generate_qr_code "someone@example.com" "hello" envNoLogo (some "write back soon")
        "email_qr.png").qr_version = 7 ∧
    (generate_qr_code "someone@example.com" "hello" envNoLogo (some "write back soon")
        "email_qr.png").error = none ∧
    (generate_qr_code "someone@example.com" "hello" envNoLogo (some "write back soon")
        "email_qr.png").saved ≠ none := by
  decide

set_option maxHeartbeats 1600000 in
/-- Claim C4 amended: the QR symbol is requested at version 6 with
error-correction level H, but `make(fit=True)` enables auto-fit: the
version actually used is `best_fit` of the payload from 6 upward; only
when even version 40 cannot hold the payload (`best_fit` = 41) does the
library's `DataOverflowError` propagate, unrecovered, with nothing saved,
and otherwise no capacity error is raised. -/
theorem version_autofit_amended (email subject out : String) (body : Option String) (env : Env) :
    (generate_qr_code email subject env body out).qr_version =
      fitted_version (email_link email subject (body.getD default_body)) ∧
    (generate_qr_code email subject env body out).config.version = 6 ∧
    (if 41 ≤ fitted_version (email_link email subject (body.getD default_body)) then
      (generate_qr_code email subject env body out).error = some PyExc.dataOverflow ∧
      (generate_qr_code email subject env body out).saved = none ∧
      (generate_qr_code email subject env body out).events = []
    else
      (generate_qr_code email subject env body out).error ≠ some PyExc.dataOverflow) := by
  have herr : (generate_qr_code email subject env body out).error =
      (runStages (fitted_version (email_link email subject (body.getD default_body))) env out).error := by
    simp only [generate_qr_code]
  have hsav : (generate_qr_code email subject env body out).saved =
      (runStages (fitted_version (email_link email subject (body.getD default_body))) env out).saved := by
    simp only [generate_qr_code]
  have hevt : (generate_qr_code email subject env body out).events =
      (runStages (fitted_version (email_link email subject (body.getD default_body))) env out).events := by
    simp only [generate_qr_code]
  refine ⟨by simp only [generate_qr_code], by simp only [generate_qr_code, fixedConfig], ?_⟩
  rcases le_or_lt 41 (fitted_version (email_link email subject (body.getD default_body)))
    with h | hlt
  · simp only [h, if_true]
    have hr := runStages_overflow _ env out h
    rw [herr, hsav, hevt, hr]
    exact ⟨rfl, rfl, rfl⟩
  · have h : ¬ 41 ≤ fitted_version (email_link email subject (body.getD default_body)) := by
      omega
    simp only [h, if_false]
    rw [herr]
    exact runStages_no_overflow _ env out h

/-- Claim C2: when the logo path names a nonexistent file, exactly that
condition is caught: the run prints the informational message, skips the
logo, completes without error, and saves the QR-only image (no overlay) at
the output path. -/
theorem missing_logo_recovered (email subject out : String) (body : Option String) (env : Env)
    (hopen : env.openResult = Except.error IOErr.fileNotFound)
    (hsave : env.saveErr = none) (hshow : env.showErr = none)
    (hv : fitted_version (email_link email subject (body.getD default_body)) ≤ 40) :
    (generate_qr_code email subject env body out).error = none ∧
    Event.printed logo_missing_msg ∈ (generate_qr_code email subject env body out).events ∧
    (generate_qr_code email subject env body out).saved =
      some (out, make_image (fitted_version (email_link email subject (body.getD default_body)))) ∧
    (make_image (fitted_version (email_link email subject (body.getD default_body)))).overlay =
      none := by
  have hv41 : ¬ 41 ≤ fitted_version (email_link email subject (body.getD default_body)) := by
    omega
  have hrun : runStages (fitted_version (email_link email subject (body.getD default_body))) env out =
      { events := [Event.printed logo_missing_msg, Event.savedFile out, Event.shown,
          Event.printed (saved_msg out)],
        saved := some (out,
          make_image (fitted_version (email_link email subject (body.getD default_body)))),
        error := none } := by
    simp only [runStages, addLogo, logo_block, hopen, hsave, hshow, hv41, if_false,
      List.cons_append, List.nil_append]
  refine ⟨?_, ?_, ?_, rfl⟩
  · rw [generate_error_eq email subject out body env, hrun]
  · rw [generate_events_eq email subject out body env, hrun]
    exact List.mem_cons_self _ _
  · rw [generate_saved_eq email subject out body env, hrun]

/-- Claim C3: a logo load error other than file-not-found is not caught: the
run propagates that very exception, nothing is printed, and no output file
is written (the save step is never reached). -/
theorem corrupt_logo_propagates (email subject out m : String) (body : Option String) (env : Env)
    (hopen : env.openResult = Except.error (IOErr.other m))
    (hv : fitted_version (email_link email subject (body.getD default_body)) ≤ 40) :
    (generate_qr_code email subject env body out).error = some (PyExc.other m) ∧
    (generate_qr_code email subject env body out).saved = none ∧
    (generate_qr_code email subject env body out).events = [] := by
  have hv41 : ¬ 41 ≤ fitted_version (email_link email subject (body.getD default_body)) := by
    omega
  have hrun : runStages (fitted_version (email_link email subject (body.getD default_body))) env out =
      { events := [], saved := none, error := some (PyExc.other m) } := by
    simp only [runStages, addLogo, logo_block, hopen, hv41, if_false]
  refine ⟨?_, ?_, ?_⟩
  · rw [generate_error_eq email subject out body env, hrun]
  · rw [generate_saved_eq email subject out body env, hrun]
  · rw [generate_events_eq email subject out body env, hrun]

/-- Claim C5: a successfully loaded logo is resized to a square of side
`W / 3` (integer division, W the QR image pixel width; the aspect ratio of
the `logo` argument is ignored, so a non-square logo is stretched), pasted
at integer-division offsets `((W - w) / 2, (H - h) / 2)` so it is centered,
and the produced image keeps exactly the dimensions of the no-logo case. -/
theorem logo_geometry (email subject out : String) (body : Option String) (logo : PILImage)
    (env : Env)
    (hopen : env.openResult = Except.ok logo)
    (hre : env.resizeErr = none) (hpa : env.pasteErr = none)
    (hsave : env.saveErr = none) (hshow : env.showErr = none)
    (hv : fitted_version (email_link email subject (body.getD default_body)) ≤ 40) :
    ∃ img,
      (generate_qr_code email subject env body out).saved = some (out, img) ∧
      img.width =
        (make_image (fitted_version (email_link email subject (body.getD default_body)))).width ∧
      img.height =
        (make_image (fitted_version (email_link email subject (body.getD default_body)))).width ∧
      img.overlay = some
        (((make_image (fitted_version (email_link email subject (body.getD default_body)))).width -
            (make_image (fitted_version (email_link email subject (body.getD default_body)))).width / 3) / 2,
          ((make_image (fitted_version (email_link email subject (body.getD default_body)))).width -
            (make_image (fitted_version (email_link email subject (body.getD default_body)))).width / 3) / 2,
          (make_image (fitted_version (email_link email subject (body.getD default_body)))).width / 3,
          (make_image (fitted_version (email_link email subject (body.getD default_body)))).width / 3) ∧
      (generate_qr_code email subject envNoLogo body out).saved =
        some (out, make_image (fitted_version (email_link email subject (body.getD default_body)))) := by
  have hv41 : ¬ 41 ≤ fitted_version (email_link email subject (body.getD default_body)) := by
    omega
  have hrun := runStages_with_logo
    (fitted_version (email_link email subject (body.getD default_body))) env out logo
    hopen hre hpa hsave hshow hv41
  rw [generate_saved_eq email subject out body env, hrun,
    generate_saved_eq email subject out body envNoLogo,
    runStages_no_logo _ envNoLogo out rfl rfl rfl hv41]
  refine ⟨_, rfl, ?_, ?_, ?_, rfl⟩
  · simp only [PILImage.paste]
  · simp only [PILImage.paste, make_image]
  · simp only [PILImage.paste, PILImage.resize, make_image]

/-- Claim C6: whenever the payload fits version 6 (the fixed settings:
version 6, box size 10, border 4) and a run saves an image, that image is
RGB and `(41 + 2*4) * 10 = 490` pixels on each side, at the requested
output path. -/
theorem image_dimensions_490 (email subject out path : String) (body : Option String)
    (env : Env) (img : PILImage)
    (hv : fitted_version (email_link email subject (body.getD default_body)) = 6)
    (hsaved : (generate_qr_code email subject env body out).saved = some (path, img)) :
    img.width = 490 ∧ img.height = 490 ∧ img.mode = "RGB" ∧ path = out := by
  rw [generate_saved_eq email subject out body env, hv] at hsaved
  obtain ⟨hp, hw, hh, hm⟩ := runStages_saved_shape 6 env out path img hsaved
  refine ⟨?_, ?_, hm, hp⟩
  · rw [hw]; decide
  · rw [hh]; decide

/-- Claim C7: a run that reaches the output stage saves the composed image
first, then shows it, then prints the confirmation including the output
path (the default path being `email_qr.png`); if showing fails the save has
already happened and is not undone. -/
theorem output_stage_order (email subject out : String) (body : Option String) (env : Env)
    (img : PILImage) (evs : List Event) (e : IOErr)
    (hv : fitted_version (email_link email subject (body.getD default_body)) ≤ 40)
    (hlogo : addLogo env
        (make_image (fitted_version (email_link email subject (body.getD default_body)))) =
      Except.ok (img, evs))
    (hsave : env.saveErr = none) :
    (env.showErr = none →
      (generate_qr_code email subject env body out).events =
        evs ++ [Event.savedFile out, Event.shown, Event.printed (saved_msg out)] ∧
      (generate_qr_code email subject env body out).saved = some (out, img) ∧
      (generate_qr_code email subject env body out).error = none) ∧
    (env.showErr = some e →
      (generate_qr_code email subject env body out).saved = some (out, img) ∧
      Event.savedFile out ∈ (generate_qr_code email subject env body out).events ∧
      Event.shown ∉ (generate_qr_code email subject env body out).events ∧
      (generate_qr_code email subject env body out).error = some e.toExc) ∧
    (env.showErr = none →
      (generate_qr_code email subject env body default_output).events =
        evs ++ [Event.savedFile default_output, Event.shown,
          Event.printed (saved_msg default_output)]) := by
  have hv41 : ¬ 41 ≤ fitted_version (email_link email subject (body.getD default_body)) := by
    omega
  obtain ⟨-, -, -, hevs⟩ := addLogo_ok env _ img evs hlogo
  refine ⟨fun hsh => ?_, fun hsh => ?_, fun hsh => ?_⟩
  · have hrun : runStages (fitted_version (email_link email subject (body.getD default_body)))
        env out =
        { events := evs ++ [Event.savedFile out, Event.shown, Event.printed (saved_msg out)],
          saved := some (out, img), error := none } := by
      simp only [runStages, hv41, if_false, hlogo, hsave, hsh]
    exact ⟨by rw [generate_events_eq email subject out body env, hrun],
      by rw [generate_saved_eq email subject out body env, hrun],
      by rw [generate_error_eq email subject out body env, hrun]⟩
  · have hrun : runStages (fitted_version (email_link email subject (body.getD default_body)))
        env out =
        { events := evs ++ [Event.savedFile out],
          saved := some (out, img), error := some e.toExc } := by
      simp only [runStages, hv41, if_false, hlogo, hsave, hsh]
    refine ⟨by rw [generate_saved_eq email subject out body env, hrun], ?_, ?_,
      by rw [generate_error_eq email subject out body env, hrun]⟩
    · rw [generate_events_eq email subject out body env, hrun]
      exact List.mem_append_right _ (List.mem_cons_self _ _)
    · rw [generate_events_eq email subject out body env, hrun]
      rcases hevs with rfl | rfl <;> simp
  · have hrun : runStages (fitted_version (email_link email subject (body.getD default_body)))
        env default_output =
        { events := evs ++ [Event.savedFile default_output, Event.shown,
            Event.printed (saved_msg default_output)],
          saved := some (default_output, img), error := none } := by
      simp only [runStages, hv41, if_false, hlogo, hsave, hsh]
    rw [generate_events_eq email subject default_output body env, hrun]

/-- Claim C10: the `except FileNotFoundError` handler covers the whole
overlay sequence, not only the open call: a `FileNotFoundError` raised at
the resize or paste step is also recovered (message printed, logo skipped,
bare QR image saved), while any other exception raised at those steps
propagates with nothing saved. -/
theorem handler_scope_whole_block (email subject out : String) (body : Option String)
    (logo : PILImage) (env : Env) (e : IOErr)
    (hopen : env.openResult = Except.ok logo)
    (hsave : env.saveErr = none) (hshow : env.showErr = none)
    (hv : fitted_version (email_link email subject (body.getD default_body)) ≤ 40)
    (hstep : (env.resizeErr = some e ∧ env.pasteErr = none) ∨
      (env.resizeErr = none ∧ env.pasteErr = some e)) :
    (e = IOErr.fileNotFound →
      (generate_qr_code email subject env body out).error = none ∧
      Event.printed logo_missing_msg ∈ (generate_qr_code email subject env body out).events ∧
      (generate_qr_code email subject env body out).saved =
        some (out,
          make_image (fitted_version (email_link email subject (body.getD default_body))))) ∧
    (e ≠ IOErr.fileNotFound →
      (generate_qr_code email subject env body out).error = some e.toExc ∧
      (generate_qr_code email subject env body out).saved = none ∧
      (generate_qr_code email subject env body out).events = []) := by
  have hv41 : ¬ 41 ≤ fitted_version (email_link email subject (body.getD default_body)) := by
    omega
  constructor
  · rintro rfl
    rcases hstep with ⟨h1, h2⟩ | ⟨h1, h2⟩
    · have hrun : runStages (fitted_version (email_link email subject (body.getD default_body)))
          env out =
          { events := [Event.printed logo_missing_msg, Event.savedFile out, Event.shown,
              Event.printed (saved_msg out)],
            saved := some (out,
              make_image (fitted_version (email_link email subject (body.getD default_body)))),
            error := none } := by
        simp only [runStages, addLogo, logo_block, hopen, h1, h2, hsave, hshow, hv41, if_false,
          List.cons_append, List.nil_append]
      refine ⟨?_, ?_, ?_⟩
      · rw [generate_error_eq email subject out body env, hrun]
      · rw [generate_events_eq email subject out body env, hrun]
        exact List.mem_cons_self _ _
      · rw [generate_saved_eq email subject out body env, hrun]
    · have hrun : runStages (fitted_version (email_link email subject (body.getD default_body)))
          env out =
          { events := [Event.printed logo_missing_msg, Event.savedFile out, Event.shown,
              Event.printed (saved_msg out)],
            saved := some (out,
              make_image (fitted_version (email_link email subject (body.getD default_body)))),
            error := none } := by
        simp only [runStages, addLogo, logo_block, hopen, h1, h2, hsave, hshow, hv41, if_false,
          List.cons_append, List.nil_append]
      refine ⟨?_, ?_, ?_⟩
      · rw [generate_error_eq email subject out body env, hrun]
      · rw [generate_events_eq email subject out body env, hrun]
        exact List.mem_cons_self _ _
      · rw [generate_saved_eq email subject out body env, hrun]
  · intro hne
    obtain ⟨m, rfl⟩ : ∃ m, e = IOErr.other m := by
      cases e
      · exact absurd rfl hne
      · exact ⟨_, rfl⟩
    rcases hstep with ⟨h1, h2⟩ | ⟨h1, h2⟩
    · have hrun : runStages (fitted_version (email_link email subject (body.getD default_body)))
          env out =
          { events := [], saved := none, error := some (PyExc.other m) } := by
        simp only [runStages, addLogo, logo_block, hopen, h1, h2, hsave, hshow, hv41, if_false]
      refine ⟨?_, ?_, ?_⟩
      · rw [generate_error_eq email subject out body env, hrun]
        rfl
      · rw [generate_saved_eq email subject out body env, hrun]
      · rw [generate_events_eq email subject out body env, hrun]
    · have hrun : runStages (fitted_version (email_link email subject (body.getD default_body)))
          env out =
          { events := [], saved := none, error := some (PyExc.other m) } := by
        simp only [runStages, addLogo, logo_block, hopen, h1, h2, hsave, hshow, hv41, if_false]
      refine ⟨?_, ?_, ?_⟩
      · rw [generate_error_eq email subject out body env, hrun]
        rfl
      · rw [generate_saved_eq email subject out body env, hrun]
      · rw [generate_events_eq email subject out body env, hrun]

set_option maxRecDepth 8192 in
/-- Witness for the C2 theorem at a concrete call. -/
theorem missing_logo_recovered_witness :
    envNoLogo.openResult = Except.error IOErr.fileNotFound ∧
    envNoLogo.saveErr = none ∧ envNoLogo.showErr = none ∧
    fitted_version (email_link "a@b.com" "Hi" ((some "Hello").getD default_body)) ≤ 40 ∧
    ((generate_qr_code "a@b.com" "Hi" envNoLogo (some "Hello") "email_qr.png").error = none ∧
      Event.printed logo_missing_msg ∈
        (generate_qr_code "a@b.com" "Hi" envNoLogo (some "Hello") "email_qr.png").events ∧
      (generate_qr_code "a@b.com" "Hi" envNoLogo (some "Hello") "email_qr.png").saved =
        some ("email_qr.png",
          make_image (fitted_version (email_link "a@b.com" "Hi" ((some "Hello").getD default_body)))) ∧
      (make_image (fitted_version
        (email_link "a@b.com" "Hi" ((some "Hello").getD default_body)))).overlay = none) :=
  ⟨rfl, rfl, rfl, by decide,
    missing_logo_recovered "a@b.com" "Hi" "email_qr.png" (some "Hello") envNoLogo
      rfl rfl rfl (by decide)⟩

set_option maxRecDepth 8192 in
/-- Witness for the C3 theorem at a concrete call. -/
theorem corrupt_logo_propagates_witness :
    envCorrupt.openResult = Except.error (IOErr.other "corrupt") ∧
    fitted_version (email_link "a@b.com" "Hi" ((some "Hello").getD default_body)) ≤ 40 ∧
    ((generate_qr_code "a@b.com" "Hi" envCorrupt (some "Hello") "out.png").error =
        some (PyExc.other "corrupt") ∧
      (generate_qr_code "a@b.com" "Hi" envCorrupt (some "Hello") "out.png").saved = none ∧
      (generate_qr_code "a@b.com" "Hi" envCorrupt (some "Hello") "out.png").events = []) :=
  ⟨rfl, by decide,
    corrupt_logo_propagates "a@b.com" "Hi" "out.png" "corrupt" (some "Hello") envCorrupt
      rfl (by decide)⟩

set_option maxRecDepth 8192 in
/-- Witness for the C5 theorem at a concrete call with a non-square logo. -/
theorem logo_geometry_witness :
    envLogo.openResult = Except.ok logoTest ∧
    envLogo.resizeErr = none ∧ envLogo.pasteErr = none ∧
    envLogo.saveErr = none ∧ envLogo.showErr = none ∧
    fitted_version (email_link "a@b.com" "Hi" ((some "Hello").getD default_body)) ≤ 40 ∧
    (∃ img,
      (generate_qr_code "a@b.com" "Hi" envLogo (some "Hello") "out.png").saved =
        some ("out.png", img) ∧
      img.width = (make_image (fitted_version
        (email_link "a@b.com" "Hi" ((some "Hello").getD default_body)))).width ∧
      img.height = (make_image (fitted_version
        (email_link "a@b.com" "Hi" ((some "Hello").getD default_body)))).width ∧
      img.overlay = some
        (((make_image (fitted_version
              (email_link "a@b.com" "Hi" ((some "Hello").getD default_body)))).width -
            (make_image (fitted_version
              (email_link "a@b.com" "Hi" ((some "Hello").getD default_body)))).width / 3) / 2,
          ((make_image (fitted_version
              (email_link "a@b.com" "Hi" ((some "Hello").getD default_body)))).width -
            (make_image (fitted_version
              (email_link "a@b.com" "Hi" ((some "Hello").getD default_body)))).width / 3) / 2,
          (make_image (fitted_version
            (email_link "a@b.com" "Hi" ((some "Hello").getD default_body)))).width / 3,
          (make_image (fitted_version
            (email_link "a@b.com" "Hi" ((some "Hello").getD default_body)))).width / 3) ∧
      (generate_qr_code "a@b.com" "Hi" envNoLogo (some "Hello") "out.png").saved =
        some ("out.png", make_image (fitted_version
          (email_link "a@b.com" "Hi" ((some "Hello").getD default_body))))) :=
  ⟨rfl, rfl, rfl, rfl, rfl, by decide,
    logo_geometry "a@b.com" "Hi" "out.png" (some "Hello") logoTest envLogo
      rfl rfl rfl rfl rfl (by decide)⟩

set_option maxRecDepth 8192 in
/-- Witness for the C6 theorem at a concrete call. -/
theorem image_dimensions_490_witness :
    fitted_version (email_link "a@b.com" "Hi" ((some "Hello").getD default_body)) = 6 ∧
    (generate_qr_code "a@b.com" "Hi" envNoLogo (some "Hello") "out.png").saved =
      some ("out.png", make_image 6) ∧
    ((make_image 6).width = 490 ∧ (make_image 6).height = 490 ∧
      (make_image 6).mode = "RGB" ∧ "out.png" = "out.png") :=
  ⟨by decide, by decide,
    image_dimensions_490 "a@b.com" "Hi" "out.png" "out.png" (some "Hello") envNoLogo
      (make_image 6) (by decide) (by decide)⟩

set_option maxRecDepth 8192 in
/-- Witness for the C7 theorem at a concrete call. -/
theorem output_stage_order_witness :
    fitted_version (email_link "a@b.com" "Hi" ((some "Hello").getD default_body)) ≤ 40 ∧
    addLogo envLogo (make_image (fitted_version
        (email_link "a@b.com" "Hi" ((some "Hello").getD default_body)))) =
      Except.ok (pastedTest, []) ∧
    envLogo.saveErr = none ∧
    ((envLogo.showErr = none →
      (generate_qr_code "a@b.com" "Hi" envLogo (some "Hello") "out.png").events =
        [] ++ [Event.savedFile "out.png", Event.shown, Event.printed (saved_msg "out.png")] ∧
      (generate_qr_code "a@b.com" "Hi" envLogo (some "Hello") "out.png").saved =
        some ("out.png", pastedTest) ∧
      (generate_qr_code "a@b.com" "Hi" envLogo (some "Hello") "out.png").error = none) ∧
    (envLogo.showErr = some (IOErr.other "viewer") →
      (generate_qr_code "a@b.com" "Hi" envLogo (some "Hello") "out.png").saved =
        some ("out.png", pastedTest) ∧
      Event.savedFile "out.png" ∈
        (generate_qr_code "a@b.com" "Hi" envLogo (some "Hello") "out.png").events ∧
      Event.shown ∉
        (generate_qr_code "a@b.com" "Hi" envLogo (some "Hello") "out.png").events ∧
      (generate_qr_code "a@b.com" "Hi" envLogo (some "Hello") "out.png").error =
        some (IOErr.other "viewer").toExc) ∧
    (envLogo.showErr = none →
      (generate_qr_code "a@b.com" "Hi" envLogo (some "Hello") default_output).events =
        [] ++ [Event.savedFile default_output, Event.shown,
          Event.printed (saved_msg default_output)])) :=
  ⟨by decide, by decide, rfl,
    output_stage_order "a@b.com" "Hi" "out.png" (some "Hello") envLogo
      pastedTest
      [] (IOErr.other "viewer") (by decide) (by decide) rfl⟩

set_option maxRecDepth 8192 in
/-- Witness for the C10 theorem at a concrete call where the resize step
raises `FileNotFoundError`. -/
theorem handler_scope_whole_block_witness :
    envResizeFNF.openResult = Except.ok logoTest ∧
    envResizeFNF.saveErr = none ∧ envResizeFNF.showErr = none ∧
    fitted_version (email_link "a@b.com" "Hi" ((some "Hello").getD default_body)) ≤ 40 ∧
    (envResizeFNF.resizeErr = some IOErr.fileNotFound ∧ envResizeFNF.pasteErr = none) ∧
    ((IOErr.fileNotFound = IOErr.fileNotFound →
      (generate_qr_code "a@b.com" "Hi" envResizeFNF (some "Hello") "out.png").error = none ∧
      Event.printed logo_missing_msg ∈
        (generate_qr_code "a@b.com" "Hi" envResizeFNF (some "Hello") "out.png").events ∧
      (generate_qr_code "a@b.com" "Hi" envResizeFNF (some "Hello") "out.png").saved =
        some ("out.png", make_image (fitted_version
          (email_link "a@b.com" "Hi" ((some "Hello").getD default_body))))) ∧
    (IOErr.fileNotFound ≠ IOErr.fileNotFound →
      (generate_qr_code "a@b.com" "Hi" envResizeFNF (some "Hello") "out.png").error =
        some IOErr.fileNotFound.toExc ∧
      (generate_qr_code "a@b.com" "Hi" envResizeFNF (some "Hello") "out.png").saved = none ∧
      (generate_qr_code "a@b.com" "Hi" envResizeFNF (some "Hello") "out.png").events = [])) :=
  ⟨rfl, rfl, rfl, by decide, ⟨rfl, rfl⟩,
    handler_scope_whole_block "a@b.com" "Hi" "out.png" (some "Hello") logoTest envResizeFNF
      IOErr.fileNotFound rfl rfl rfl (by decide) (Or.inl ⟨rfl, rfl⟩)⟩

end QRGen
